import Mathlib

/-!
Shallow embedding of the dco3 OAuth2 session manager (src/src/auth/mod.rs) and
the public-share S3 upload pipeline (src/src/public/upload.rs), together with
theorems checking the natural-language specification against it.

Conventions:
* machine integers are modelled as Nat (with an explicit % 2^32 where the Rust
  code performs a u32 cast or u32 arithmetic that may wrap);
* timestamps are Int seconds (chrono num_seconds resolution);
* fallible Rust code returning Result is modelled with Except / a dedicated
  Outcome type that also has a constructor for panics (unimplemented, expect,
  assert) and one for loops that never reach a terminal state;
* network and cryptographic collaborators (reqwest, dco3_crypto, the DRACOON
  server) are passed in explicitly as oracle functions, so every definition
  stays executable.
Definitions whose Rust source is not under src/ (the constants module, the
error enum of auth/errors.rs, the request models of auth/models.rs and of the
nodes module) are modelled from the spec and marked as such in their doc
comments.
-/

/-- Modelled from the spec (section 7): the error taxonomy of
DracoonClientError; auth/errors.rs is not under src/. Only the discriminants
used by the embedded code paths carry payloads here. -/
inductive DracoonClientError where
  | MissingBaseUrl
  | MissingClientId
  | MissingClientSecret
  | InvalidUrl
  | Auth (message : String)
  | Http (errorDetails : String)
  | IoError
  | CryptoError
  | MissingEncryptionSecret
  | UnsupportedStorageMode
  | ConnectionClosed
  deriving DecidableEq, Repr

/-- Outcome of running a piece of Rust code: a returned value, a returned
error (Result Err), a panic (unimplemented, expect, assert_eq) carrying the
panic message, or divergence (a loop that never reaches a terminal state). -/
inductive Outcome (α : Type) where
  | ok (a : α)
  | error (e : DracoonClientError)
  | panicked (msg : String)
  | diverges
  deriving DecidableEq, Repr

instance {ε α : Type} [DecidableEq ε] [DecidableEq α] : DecidableEq (Except ε α) :=
  fun a b =>
    match a, b with
    | .ok x, .ok y =>
      if h : x = y then isTrue (by rw [h]) else isFalse (by intro hc; injection hc; contradiction)
    | .error x, .error y =>
      if h : x = y then isTrue (by rw [h]) else isFalse (by intro hc; injection hc; contradiction)
    | .ok _, .error _ => isFalse (by intro hc; exact Except.noConfusion hc)
    | .error _, .ok _ => isFalse (by intro hc; exact Except.noConfusion hc)

/-- True iff the outcome is a normally returned value. -/
def Outcome.isOk {α : Type} : Outcome α → Bool
  | .ok _ => true
  | _ => false

/-- The property P holds of the returned value (False on error, panic or
divergence). -/
def Outcome.holds {α : Type} : Outcome α → (α → Prop) → Prop
  | .ok a, P => P a
  | _, _ => False

/-- A parsed absolute URL (the url crate Url type, external collaborator);
only the raw text is tracked. -/
structure Url where
  raw : String
  deriving DecidableEq, Repr

/-- Embeds struct Connection of src/src/auth/mod.rs: the OAuth2 token pair.
connected_at is the issuance instant in seconds (chrono DateTime, seconds
resolution as used by num_seconds). -/
structure Connection where
  access_token : String
  refresh_token : String
  expires_in : Nat
  connected_at : Int
  deriving DecidableEq, Repr

/-- Embeds struct DracoonClient of src/src/auth/mod.rs. The phantom typestate
parameter is replaced by the connection field itself: the source keeps
connection = None in the Disconnected state and Some in the Connected state. -/
structure DracoonClient where
  base_url : Url
  redirect_uri : Option Url
  client_id : String
  client_secret : String
  connection : Option Connection
  deriving DecidableEq, Repr

/-- Embeds struct DracoonClientBuilder of src/src/auth/mod.rs. -/
structure DracoonClientBuilder where
  base_url : Option String
  redirect_uri : Option String
  client_id : Option String
  client_secret : Option String
  deriving DecidableEq, Repr

/-- Embeds DracoonClientBuilder::build (src/src/auth/mod.rs lines 107-144).
The url crate parser is passed in as parseUrl (none = parse error); the `?` on
a parse failure maps to InvalidUrl per the spec taxonomy (auth/errors.rs is
not under src/). Checks happen in source order: base_url presence, base_url
parse, client_id presence, client_secret presence, then the redirect uri
(defaulted to base ++ /oauth/callback) is parsed. No emptiness validation
appears in the source. -/
def DracoonClientBuilder.build (parseUrl : String → Option Url)
    (b : DracoonClientBuilder) : Except DracoonClientError DracoonClient :=
  match b.base_url with
  | none => .error .MissingBaseUrl
  | some base_s =>
    match parseUrl base_s with
    | none => .error .InvalidUrl
    | some base =>
      match b.client_id with
      | none => .error .MissingClientId
      | some cid =>
        match b.client_secret with
        | none => .error .MissingClientSecret
        | some csec =>
          let redirect :=
            match b.redirect_uri with
            | some u => parseUrl u
            | none => parseUrl (base_s ++ "/oauth/callback")
          match redirect with
          | none => .error .InvalidUrl
          | some r =>
            .ok { base_url := base, redirect_uri := some r, client_id := cid,
                  client_secret := csec, connection := none }

/-- UTF-8 encoding of one unicode code point (byte values as Nat). -/
def utf8EncodeCodePoint (c : Nat) : List Nat :=
  if c < 0x80 then [c]
  else if c < 0x800 then [0xC0 + c / 64, 0x80 + c % 64]
  else if c < 0x10000 then [0xE0 + c / 4096, 0x80 + c / 64 % 64, 0x80 + c % 64]
  else [0xF0 + c / 262144, 0x80 + c / 4096 % 64, 0x80 + c / 64 % 64, 0x80 + c % 64]

/-- UTF-8 bytes of a string (what the base64 crate encodes). -/
def utf8Bytes (s : String) : List Nat :=
  (s.data.map (fun c => utf8EncodeCodePoint c.toNat)).flatten

/-- The URL_SAFE base64 alphabet of the base64 crate (A-Z a-z 0-9 - _). -/
def b64UrlAlphabet : List Char :=
  "ABCDEFGHIJKLMNOPQRSTUVWXYZabcdefghijklmnopqrstuvwxyz0123456789-_".data

/-- Character for one sextet value. -/
def b64Char (n : Nat) : Char := b64UrlAlphabet.getD n 'A'

/-- base64 with the URL_SAFE alphabet and NO_PAD (engine::GeneralPurpose::new
(alphabet::URL_SAFE, general_purpose::NO_PAD) in src/src/auth/mod.rs lines
182-183): encode 3-byte groups into 4 sextets, trailing groups of 1 or 2
bytes into 2 or 3 characters, no padding. -/
def base64UrlNoPad : List Nat → List Char
  | [] => []
  | [b1] => [b64Char (b1 / 4), b64Char (b1 % 4 * 16)]
  | [b1, b2] =>
    [b64Char (b1 / 4), b64Char (b1 % 4 * 16 + b2 / 16), b64Char (b2 % 16 * 4)]
  | b1 :: b2 :: b3 :: rest =>
    b64Char (b1 / 4) :: b64Char (b1 % 4 * 16 + b2 / 16) ::
    b64Char (b2 % 16 * 4 + b3 / 64) :: b64Char (b3 % 64) :: base64UrlNoPad rest

/-- Embeds DracoonClient::client_credentials (src/src/auth/mod.rs lines
181-187): URL-safe no-pad base64 of "client_id:client_secret". -/
def client_credentials (client_id client_secret : String) : String :=
  String.mk (base64UrlNoPad (utf8Bytes (client_id ++ ":" ++ client_secret)))

/-- Modelled from the spec (section 6): the token endpoint is {base}/oauth/token
(DRACOON_TOKEN_URL lives in the constants module, not under src/). -/
def get_token_url (base : Url) : String := base.raw ++ "/oauth/token"

/-- An outgoing POST to the token endpoint: target URL, optional
Authorization header value, and the form-encoded body as key/value pairs. -/
structure TokenRequest where
  url : String
  auth_header : Option String
  form : List (String × String)
  deriving DecidableEq, Repr

/-- Modelled from the spec: the form body of OAuth2PasswordFlow
(auth/models.rs is not under src/); its constructor in src takes only
username and password, so the body carries no client credentials. -/
def passwordFlowForm (username password : String) : List (String × String) :=
  [("grant_type", "password"), ("username", username), ("password", password)]

/-- Modelled from the spec: the form body of OAuth2AuthCodeFlow; its
constructor in src is passed client_id, client_secret, code and redirect_uri,
so the client credentials travel in the body. -/
def authCodeFlowForm (client_id client_secret code redirect_uri : String) :
    List (String × String) :=
  [("grant_type", "authorization_code"), ("client_id", client_id),
   ("client_secret", client_secret), ("code", code),
   ("redirect_uri", redirect_uri)]

/-- Modelled from the spec: the form body of OAuth2RefreshTokenFlow; its
constructor in src is passed client_id, client_secret and the refresh token. -/
def refreshTokenFlowForm (client_id client_secret refresh_token : String) :
    List (String × String) :=
  [("grant_type", "refresh_token"), ("client_id", client_id),
   ("client_secret", client_secret), ("refresh_token", refresh_token)]

/-- Embeds connect_password_flow (src/src/auth/mod.rs lines 226-247): POST to
the token url with an Authorization header "Basic " ++ client_credentials and
the password-flow form. -/
def connect_password_flow_request (c : DracoonClient) (username password : String) :
    TokenRequest :=
  { url := get_token_url c.base_url,
    auth_header := some ("Basic " ++ client_credentials c.client_id c.client_secret),
    form := passwordFlowForm username password }

/-- Embeds connect_authcode_flow (src/src/auth/mod.rs lines 250-268): POST to
the token url with no Authorization header; client_id and client_secret are
passed to the form constructor. The redirect uri is unwrapped with expect
(panic when absent). -/
def connect_authcode_flow_request (c : DracoonClient) (code : String) :
    Outcome TokenRequest :=
  match c.redirect_uri with
  | none => .panicked "redirect uri is set"
  | some r =>
    .ok { url := get_token_url c.base_url,
          auth_header := none,
          form := authCodeFlowForm c.client_id c.client_secret code r.raw }

/-- Embeds connect_refresh_token of the Disconnected impl (src/src/auth/mod.rs
lines 271-284): POST to the token url with no Authorization header; client
credentials travel in the form. -/
def connect_refresh_token_request (c : DracoonClient) (refresh_token : String) :
    TokenRequest :=
  { url := get_token_url c.base_url,
    auth_header := none,
    form := refreshTokenFlowForm c.client_id c.client_secret refresh_token }

/-- Embeds check_access_token_validity (src/src/auth/mod.rs lines 428-437):
(now - connected_at).num_seconds() < expires_in, strict, seconds
resolution. -/
def check_access_token_validity (conn : Connection) (now : Int) : Bool :=
  now - conn.connected_at < (conn.expires_in : Int)

/-- Embeds get_auth_header of the Connected impl (src/src/auth/mod.rs lines
404-416). refreshResult is what the token endpoint answers to the refresh
POST of connect_refresh_token (lines 385-401). The source takes &self: when
the stored token is stale it performs the refresh, propagates a refresh error
with ?, but drops the freshly fetched Connection on success, and then builds
the header from the unchanged self.connection. -/
def get_auth_header (conn : Connection) (now : Int)
    (refreshResult : Except DracoonClientError Connection) :
    Except DracoonClientError String :=
  if check_access_token_validity conn now then
    .ok ("Bearer " ++ conn.access_token)
  else
    match refreshResult with
    | .error e => .error e
    | .ok _ => .ok ("Bearer " ++ conn.access_token)

/-!
## Upload pipeline data model (src/src/public/upload.rs)
-/

/-- Modelled from the spec (section 4.C): the default chunk size constant
CHUNK_SIZE of the constants module (not under src/) is 32 MiB. -/
def CHUNK_SIZE : Nat := 32 * 1024 * 1024

/-- Modelled from the spec (section 4.F): the initial polling delay constant
POLLING_START_DELAY of the constants module (not under src/); the spec fixes
no value, 300 ms is used here. No theorem depends on the value. -/
def POLLING_START_DELAY : Nat := 300

/-- Modelled from the spec (section 4.C): calculate_s3_url_count of
nodes/upload.rs (not under src/), the pure chunk planner:
size 0 gives (1, 0); otherwise count = ceil(size / chunk) and
last = size - (count - 1) * chunk. -/
def calculate_s3_url_count (size chunk : Nat) : Nat × Nat :=
  if size = 0 then (1, 0)
  else
    let count := (size + chunk - 1) / chunk
    (count, size - (count - 1) * chunk)

/-- File metadata: the (name, size) tuple file_meta of UploadOptions. -/
structure FileMeta where
  name : String
  size : Nat
  deriving DecidableEq, Repr

/-- Embeds the slice of UploadOptions the upload paths consume: file_meta plus
the timestamps that parse_upload_options (nodes/upload.rs, not under src/)
extracts and the channel request carries. -/
structure UploadOptions where
  file_meta : FileMeta
  timestamp_creation : Option String
  timestamp_modification : Option String
  deriving DecidableEq, Repr

/-- A recipient public key entry of the upload share (id plus the RSA public
key container, kept abstract as its text). -/
structure UserUserPublicKey where
  id : Nat
  public_key_container : String
  deriving DecidableEq, Repr

/-- The recipient public key list attached to an encrypted share. -/
structure UserUserPublicKeyList where
  items : List UserUserPublicKey
  deriving DecidableEq, Repr

/-- Embeds PublicUploadShare (fields consumed by upload.rs): is_encrypted and
the recipient public key list. -/
structure PublicUploadShare where
  is_encrypted : Option Bool
  user_user_public_key_list : Option UserUserPublicKeyList
  deriving DecidableEq, Repr

/-- A wrapped per-file key for one recipient: UserFileKey::new(id, file_key).
The wrapped key itself is abstract text. -/
structure UserFileKey where
  recipient_id : Nat
  file_key : String
  deriving DecidableEq, Repr

/-- Embeds CreateShareUploadChannelRequest as produced by its builder chains
in upload.rs; the builder itself (super module, not under src/) leaves every
field not set by a with_ call at None. -/
structure CreateShareUploadChannelRequest where
  name : String
  size : Option Nat
  timestamp_creation : Option String
  timestamp_modification : Option String
  direct_s3_upload : Option Bool
  deriving DecidableEq, Repr

/-- The server answer to channel creation: the upload id. -/
structure CreateShareUploadChannelResponse where
  upload_id : String
  deriving DecidableEq, Repr

/-- Embeds GeneratePresignedUrlsRequest::new(size, first_part, last_part). -/
structure GeneratePresignedUrlsRequest where
  size : Nat
  first_part : Nat
  last_part : Nat
  deriving DecidableEq, Repr

/-- One presigned URL with its part number. -/
structure PresignedUrl where
  url : String
  part_number : Nat
  deriving DecidableEq, Repr

/-- The server answer to a presigned-url request. -/
structure PresignedUrlList where
  urls : List PresignedUrl
  deriving DecidableEq, Repr

/-- Embeds S3FileUploadPart::new(part_number, etag). -/
structure S3FileUploadPart where
  part_number : Nat
  etag : String
  deriving DecidableEq, Repr

/-- Embeds CompleteS3ShareUploadRequest::new(parts, user_file_keys). -/
structure CompleteS3ShareUploadRequest where
  parts : List S3FileUploadPart
  user_file_keys : Option (List UserFileKey)
  deriving DecidableEq, Repr

/-- The S3UploadStatus enum of the status endpoint. -/
inductive S3UploadStatus where
  | Transferring
  | Finishing
  | Done
  | Error
  deriving DecidableEq, Repr

/-- The status response polled after finalize: status, file name and the
optional error details (expected to be set when status is Error). -/
structure S3ShareUploadStatus where
  status : S3UploadStatus
  file_name : String
  error_details : Option String
  deriving DecidableEq, Repr

/-- The environment of one upload run: every network or cryptographic
collaborator the pipeline calls, as oracle functions, plus the sequence of
status responses the poll loop receives. -/
structure UploadEnv where
  system_info_use_s3 : Except DracoonClientError Bool
  create_upload_channel :
    CreateShareUploadChannelRequest →
    Except DracoonClientError CreateShareUploadChannelResponse
  create_s3_upload_urls :
    GeneratePresignedUrlsRequest → Except DracoonClientError PresignedUrlList
  put_chunk : String → List Nat → Except DracoonClientError String
  finalize_upload :
    CompleteS3ShareUploadRequest → Except DracoonClientError Unit
  statuses : List (Except DracoonClientError S3ShareUploadStatus)
  encrypt_file_key : String → Except DracoonClientError String
  encrypt : List Nat → List Nat

/-- Trace of a successful upload run: the returned file name together with
the requests the pipeline sent and the progress/sleep traces, for stating
properties about them. -/
structure SuccessTrace where
  file_name : String
  channelReq : CreateShareUploadChannelRequest
  finalizeReq : CompleteS3ShareUploadRequest
  urlReqs : List GeneratePresignedUrlsRequest
  cbPositions : List Nat
  sleeps : List Nat
  deriving DecidableEq, Repr

/-- Embeds the channel request chain of upload_to_s3_unencrypted
(src/src/public/upload.rs lines 136-141): name, size, both timestamps, and
with_direct_s3_upload(true). -/
def channelRequestUnencrypted (fm : FileMeta) (ts_c ts_m : Option String) :
    CreateShareUploadChannelRequest :=
  { name := fm.name, size := some fm.size, timestamp_creation := ts_c,
    timestamp_modification := ts_m, direct_s3_upload := some true }

/-- Embeds the channel request chain of upload_to_s3_encrypted
(src/src/public/upload.rs lines 357-361): name, size and both timestamps;
no with_direct_s3_upload call appears, so the field stays unset. -/
def channelRequestEncrypted (fm : FileMeta) (ts_c ts_m : Option String) :
    CreateShareUploadChannelRequest :=
  { name := fm.name, size := some fm.size, timestamp_creation := ts_c,
    timestamp_modification := ts_m, direct_s3_upload := none }

/-- Cumulative position for a non-final part in the unencrypted loop
(src/src/public/upload.rs line 188): ((url_part - 1) * (chunk_size as u32))
as u64 - u32 arithmetic, so both the cast and the product wrap mod 2^32. -/
def posNonFinalUnenc (chunk_size p : Nat) : Nat :=
  ((p - 1) * (chunk_size % 2 ^ 32)) % 2 ^ 32

/-- Cumulative position for the final part in the unencrypted path
(src/src/public/upload.rs line 245): (url_part - 1) as u64 * (CHUNK_SIZE as
u64) - exact u64 arithmetic on the fixed default constant. -/
def posFinalUnenc (p : Nat) : Nat := (p - 1) * CHUNK_SIZE

/-- Cumulative position for a non-final part in the encrypted loop
(src/src/public/upload.rs line 416): (url_part - 1) as u64 * (chunk_size as
u64) - exact u64 arithmetic on the caller chunk size. -/
def posNonFinalEnc (chunk_size p : Nat) : Nat := (p - 1) * chunk_size

/-- Cumulative position for the final part in the encrypted path
(src/src/public/upload.rs line 482): ((url_part - 1) * (CHUNK_SIZE as u32))
as u64 - u32 arithmetic on the fixed default constant, wrapping mod 2^32. -/
def posFinalEnc (p : Nat) : Nat :=
  ((p - 1) * (CHUNK_SIZE % 2 ^ 32)) % 2 ^ 32

/-- The read loop of the encrypted preamble (src/src/public/upload.rs lines
317-322): successive reader.read results are consumed until a read yields 0
bytes (or the reader ends); every consumed chunk is fed to the encrypter. -/
def drainLoop : List (List Nat) → List Nat
  | [] => []
  | c :: cs => if c.length = 0 then [] else c ++ drainLoop cs

/-- Plaintext drained by the encrypted preamble: the read buffer has the
declared file size, so a declared size of 0 makes every read return 0 bytes
and nothing is consumed. -/
def drainPlain (size : Nat) (chunks : List (List Nat)) : List Nat :=
  if size = 0 then [] else drainLoop chunks

/-- Embeds the encryption preamble of upload_to_s3_encrypted
(src/src/public/upload.rs lines 312-329): drain the reader, encrypt
(dco3_crypto is the trusted collaborator passed as encrypt), then
assert_eq!(enc_bytes.len() as u64, file size) - a mismatch panics. -/
def encryptedPreamble (encrypt : List Nat → List Nat)
    (chunks : List (List Nat)) (size : Nat) : Outcome (List Nat) :=
  let ct := encrypt (drainPlain size chunks)
  if ct.length = size then .ok ct
  else .panicked "assertion failed: enc_bytes.len() as u64 == size"

/-- Embeds the user_file_keys computation of upload_to_s3_encrypted
(src/src/public/upload.rs lines 339-343): flat_map over the recipient list;
encrypt_file_key failures contribute no element (Result::into_iter is empty
on Err), so they are skipped silently. -/
def computeUserFileKeys (wrap : String → Except DracoonClientError String) :
    List UserUserPublicKey → List UserFileKey
  | [] => []
  | key :: rest =>
    (match wrap key.public_key_container with
     | .ok fk => [{ recipient_id := key.id, file_key := fk }]
     | .error _ => []) ++ computeUserFileKeys wrap rest

/-- Accumulator of the chunked upload loop: collected parts, issued presigned
url requests, and the cumulative positions handed to the progress callback. -/
structure LoopOut where
  parts : List S3FileUploadPart
  urlReqs : List GeneratePresignedUrlsRequest
  cbPositions : List Nat
  deriving DecidableEq, Repr

/-- Embeds the while url_part < count_urls loop of both uploaders
(src/src/public/upload.rs lines 158-210 and 379-438), parameterised over the
cumulative-position formula posOf (the sole difference between the two).
fuel is count_urls - url_part, p the current url_part, pos the reader offset.
read_exact on a chunk_size buffer either fills it or fails with IoError; a
chunk_size of 0 makes read_exact return Ok(0) which breaks the loop. The
presigned-url request carries (chunk_size, p, p); an empty url list panics
(first().expect); the S3 PUT is the put_chunk oracle, whose etag is recorded
in the parts list. Returns the final url_part, reader offset and trace. -/
def nonFinalLoop (env : UploadEnv) (bytes : List Nat) (chunk_size : Nat)
    (posOf : Nat → Nat) :
    Nat → Nat → Nat → LoopOut → Outcome (Nat × Nat × LoopOut)
  | 0, p, pos, acc => .ok (p, pos, acc)
  | fuel + 1, p, pos, acc =>
    if chunk_size = 0 then .ok (p, pos, acc)
    else if pos + chunk_size ≤ bytes.length then
      let chunkBytes := (bytes.drop pos).take chunk_size
      let req : GeneratePresignedUrlsRequest :=
        { size := chunk_size, first_part := p, last_part := p }
      match env.create_s3_upload_urls req with
      | .error e => .error e
      | .ok ulist =>
        match ulist.urls.head? with
        | none => .panicked "Creating S3 url failed"
        | some u =>
          match env.put_chunk u.url chunkBytes with
          | .error e => .error e
          | .ok etag =>
            nonFinalLoop env bytes chunk_size posOf fuel (p + 1)
              (pos + chunk_size)
              { parts := acc.parts ++ [{ part_number := p, etag := etag }],
                urlReqs := acc.urlReqs ++ [req],
                cbPositions := acc.cbPositions ++ [posOf p] }
    else .error .IoError

/-- Embeds the final-chunk upload of both uploaders (src/src/public/upload.rs
lines 212-264 and 440-505): read_exact of last_chunk_size bytes (IoError on a
short reader), one presigned-url request (last, p, p), the S3 PUT, and the
final progress position posFinal. -/
def finalPart (env : UploadEnv) (bytes : List Nat) (last : Nat)
    (p pos : Nat) (posFinal : Nat) (acc : LoopOut) : Outcome LoopOut :=
  if pos + last ≤ bytes.length then
    let chunkBytes := (bytes.drop pos).take last
    let req : GeneratePresignedUrlsRequest :=
      { size := last, first_part := p, last_part := p }
    match env.create_s3_upload_urls req with
    | .error e => .error e
    | .ok ulist =>
      match ulist.urls.head? with
      | none => .panicked "Creating S3 url failed"
      | some u =>
        match env.put_chunk u.url chunkBytes with
        | .error e => .error e
        | .ok etag =>
          .ok { parts := acc.parts ++ [{ part_number := p, etag := etag }],
                urlReqs := acc.urlReqs ++ [req],
                cbPositions := acc.cbPositions ++ [posFinal] }
  else .error .IoError

/-- Embeds the polling loop shared verbatim by both uploaders
(src/src/public/upload.rs lines 276-298 and 526-556). Each iteration consumes
one status response (get_upload_status is modelled from the spec as the next
element of the environment sequence; its body in src is a stub): an endpoint
error propagates with ?; Done returns the file name; Error returns
Http(error_details) (error_details absent panics via expect); any other
status sleeps for the current delay, doubles it and loops. Returns none when
the response sequence is exhausted without a terminal status (the source loop
would keep polling), otherwise the outcome and the list of sleeps performed. -/
def pollUploadStatus :
    List (Except DracoonClientError S3ShareUploadStatus) → Nat →
    Option (Outcome String × List Nat)
  | [], _ => none
  | .error e :: _, _ => some (.error e, [])
  | .ok st :: rest, delay =>
    match st.status with
    | .Done => some (.ok st.file_name, [])
    | .Error =>
      match st.error_details with
      | some ed => some (.error (.Http ed), [])
      | none => some (.panicked "Error message must be set if status is error", [])
    | _ =>
      match pollUploadStatus rest (delay * 2) with
      | none => none
      | some (r, sleeps) => some (r, delay :: sleeps)

/-- Embeds upload_to_s3_unencrypted (src/src/public/upload.rs lines 112-299):
channel creation with direct_s3_upload(true), the chunk plan, the part loop
with the caller chunk size (u32-wrapping position), the final part at the
fixed CHUNK_SIZE position, finalize with user_file_keys = None, and the
status poll starting at POLLING_START_DELAY. The reader is the byte
sequence bytes. -/
def upload_to_s3_unencrypted (env : UploadEnv) (_share : PublicUploadShare)
    (opts : UploadOptions) (bytes : List Nat) (chunk_size_arg : Option Nat) :
    Outcome SuccessTrace :=
  let chunk_size := chunk_size_arg.getD CHUNK_SIZE
  let fm := opts.file_meta
  let channelReq :=
    channelRequestUnencrypted fm opts.timestamp_creation opts.timestamp_modification
  match env.create_upload_channel channelReq with
  | .error e => .error e
  | .ok _ch =>
    let plan := calculate_s3_url_count fm.size chunk_size
    match nonFinalLoop env bytes chunk_size (posNonFinalUnenc chunk_size)
        (plan.1 - 1) 1 0 { parts := [], urlReqs := [], cbPositions := [] } with
    | .error e => .error e
    | .panicked m => .panicked m
    | .diverges => .diverges
    | .ok (p, pos, acc) =>
      match finalPart env bytes plan.2 p pos (posFinalUnenc p) acc with
      | .error e => .error e
      | .panicked m => .panicked m
      | .diverges => .diverges
      | .ok acc2 =>
        let freq : CompleteS3ShareUploadRequest :=
          { parts := acc2.parts, user_file_keys := none }
        match env.finalize_upload freq with
        | .error e => .error e
        | .ok _ =>
          match pollUploadStatus env.statuses POLLING_START_DELAY with
          | none => .diverges
          | some (.ok fn, sleeps) =>
            .ok { file_name := fn, channelReq := channelReq,
                  finalizeReq := freq, urlReqs := acc2.urlReqs,
                  cbPositions := acc2.cbPositions, sleeps := sleeps }
          | some (.error e, _) => .error e
          | some (.panicked m, _) => .panicked m
          | some (.diverges, _) => .diverges

/-- Embeds upload_to_s3_encrypted (src/src/public/upload.rs lines 300-557):
the encryption preamble with its length assertion, the silently-skipping
user_file_keys computation, channel creation without direct_s3_upload, the
part loop over the ciphertext with the exact u64 position, the final part at
the u32-wrapping CHUNK_SIZE position, finalize with the user file keys, and
the status poll starting at POLLING_START_DELAY. The reader is the chunk
sequence readerChunks. -/
def upload_to_s3_encrypted (env : UploadEnv) (share : PublicUploadShare)
    (opts : UploadOptions) (readerChunks : List (List Nat))
    (chunk_size_arg : Option Nat) : Outcome SuccessTrace :=
  let chunk_size := chunk_size_arg.getD CHUNK_SIZE
  let fm := opts.file_meta
  match encryptedPreamble env.encrypt readerChunks fm.size with
  | .error e => .error e
  | .panicked m => .panicked m
  | .diverges => .diverges
  | .ok ctBytes =>
    let items := (share.user_user_public_key_list.getD { items := [] }).items
    let user_file_keys := computeUserFileKeys env.encrypt_file_key items
    let channelReq :=
      channelRequestEncrypted fm opts.timestamp_creation opts.timestamp_modification
    match env.create_upload_channel channelReq with
    | .error e => .error e
    | .ok _ch =>
      let plan := calculate_s3_url_count fm.size chunk_size
      match nonFinalLoop env ctBytes chunk_size (posNonFinalEnc chunk_size)
          (plan.1 - 1) 1 0 { parts := [], urlReqs := [], cbPositions := [] } with
      | .error e => .error e
      | .panicked m => .panicked m
      | .diverges => .diverges
      | .ok (p, pos, acc) =>
        match finalPart env ctBytes plan.2 p pos (posFinalEnc p) acc with
        | .error e => .error e
        | .panicked m => .panicked m
        | .diverges => .diverges
        | .ok acc2 =>
          let freq : CompleteS3ShareUploadRequest :=
            { parts := acc2.parts, user_file_keys := some user_file_keys }
          match env.finalize_upload freq with
          | .error e => .error e
          | .ok _ =>
            match pollUploadStatus env.statuses POLLING_START_DELAY with
            | none => .diverges
            | some (.ok fn, sleeps) =>
              .ok { file_name := fn, channelReq := channelReq,
                    finalizeReq := freq, urlReqs := acc2.urlReqs,
                    cbPositions := acc2.cbPositions, sleeps := sleeps }
            | some (.error e, _) => .error e
            | some (.panicked m, _) => .panicked m
            | some (.diverges, _) => .diverges

/-- Embeds the upload entry point (src/src/public/upload.rs lines 28-57):
query system info (? on failure), then dispatch on (use_s3_storage,
is_encrypted.unwrap_or(false)); the non-S3 arm is unimplemented! and
panics. The unencrypted path reads the flattened byte stream of the same
reader. -/
def upload (env : UploadEnv) (share : PublicUploadShare) (opts : UploadOptions)
    (readerChunks : List (List Nat)) (chunk_size_arg : Option Nat) :
    Outcome SuccessTrace :=
  match env.system_info_use_s3 with
  | .error e => .error e
  | .ok use_s3 =>
    match use_s3, share.is_encrypted.getD false with
    | true, true => upload_to_s3_encrypted env share opts readerChunks chunk_size_arg
    | true, false =>
      upload_to_s3_unencrypted env share opts readerChunks.flatten chunk_size_arg
    | false, _ => .panicked "not implemented: NFS upload not implemented"

/-!
## Concrete sample environments for counterexamples and witnesses
-/

/-- A fully cooperative environment: S3 storage on, every endpoint succeeds,
one Done status, key wrapping succeeds, identity encryption (the trusted
crypto collaborator is length-preserving). -/
def okEnv : UploadEnv :=
  { system_info_use_s3 := .ok true,
    create_upload_channel := fun _ => .ok { upload_id := "up1" },
    create_s3_upload_urls := fun req =>
      .ok { urls := [{ url := "https://s3/p", part_number := req.first_part }] },
    put_chunk := fun _ _ => .ok "etag1",
    finalize_upload := fun _ => .ok (),
    statuses := [.ok { status := .Done, file_name := "x.txt", error_details := none }],
    encrypt_file_key := fun _ => .ok "wrapped",
    encrypt := id }

/-- okEnv, except that wrapping the file key for a recipient fails. -/
def c2env : UploadEnv := { okEnv with encrypt_file_key := fun _ => .error .CryptoError }

/-- okEnv, except that the system-info endpoint reports that S3 object
storage is not in use. -/
def nfsEnv : UploadEnv := { okEnv with system_info_use_s3 := .ok false }

/-- An encrypted share with the single recipient id 7. -/
def shareOneRecipient : PublicUploadShare :=
  { is_encrypted := some true,
    user_user_public_key_list := some { items := [{ id := 7, public_key_container := "pk7" }] } }

/-- An unencrypted share. -/
def shareUnencrypted : PublicUploadShare :=
  { is_encrypted := some false, user_user_public_key_list := none }

/-- Upload options for a one-byte file named f.txt. -/
def sampleOpts : UploadOptions :=
  { file_meta := { name := "f.txt", size := 1 },
    timestamp_creation := none, timestamp_modification := none }

/-- The trace of the successful one-byte encrypted upload against okEnv. -/
def okTrace : SuccessTrace :=
  { file_name := "x.txt",
    channelReq := { name := "f.txt", size := some 1, timestamp_creation := none,
                    timestamp_modification := none, direct_s3_upload := none },
    finalizeReq := { parts := [{ part_number := 1, etag := "etag1" }],
                     user_file_keys := some [{ recipient_id := 7, file_key := "wrapped" }] },
    urlReqs := [{ size := 1, first_part := 1, last_part := 1 }],
    cbPositions := [0],
    sleeps := [] }

/-- The trace of the successful one-byte encrypted upload against c2env: the
run succeeds although the sole recipient got no user file key. -/
def c2Trace : SuccessTrace :=
  { okTrace with
    finalizeReq := { parts := [{ part_number := 1, etag := "etag1" }],
                     user_file_keys := some [] } }

/-!
## Theorems
-/

/-- Helper: for a positive size the planner returns
((size - 1) / chunk + 1, size - chunk * ((size - 1) / chunk)). -/
theorem calculate_s3_url_count_pos (size chunk : Nat) (hs : 0 < size) (hc : 0 < chunk) :
    calculate_s3_url_count size chunk
      = ((size - 1) / chunk + 1, size - chunk * ((size - 1) / chunk)) := by
  unfold calculate_s3_url_count
  rw [if_neg (by omega)]
  have harith : size + chunk - 1 = (size - 1) + chunk := by omega
  rw [harith, Nat.add_div_right _ hc]
  simp [Nat.mul_comm]

/-- Claim C3: the chunk plan is a pure function of (size, chunk): size 0
yields (1, 0); for size > 0 and chunk > 0 the count is ceil(size / chunk)
and the last chunk satisfies (count - 1) * chunk + last = size with
1 <= last <= chunk; size = chunk yields (1, chunk) and size = chunk + 1
yields (2, 1). -/
theorem chunk_plan_spec (size chunk : Nat) (hs : 0 < size) (hc : 0 < chunk) :
    ((calculate_s3_url_count size chunk).1 - 1) * chunk
        + (calculate_s3_url_count size chunk).2 = size
    ∧ 1 ≤ (calculate_s3_url_count size chunk).2
    ∧ (calculate_s3_url_count size chunk).2 ≤ chunk
    ∧ (calculate_s3_url_count size chunk).1 = (size + chunk - 1) / chunk
    ∧ calculate_s3_url_count 0 chunk = (1, 0)
    ∧ calculate_s3_url_count chunk chunk = (1, chunk)
    ∧ calculate_s3_url_count (chunk + 1) chunk = (2, 1) := by
  have hdm : chunk * ((size - 1) / chunk) + (size - 1) % chunk = size - 1 :=
    Nat.div_add_mod _ _
  have hr : (size - 1) % chunk < chunk := Nat.mod_lt _ hc
  have hkey := calculate_s3_url_count_pos size chunk hs hc
  have hceil : (size + chunk - 1) / chunk = (size - 1) / chunk + 1 := by
    rw [show size + chunk - 1 = (size - 1) + chunk from by omega,
      Nat.add_div_right _ hc]
  have hchunk : calculate_s3_url_count chunk chunk = (1, chunk) := by
    rw [calculate_s3_url_count_pos chunk chunk hc hc,
      Nat.div_eq_of_lt (by omega), Nat.mul_zero]
    simp
  have hsucc : calculate_s3_url_count (chunk + 1) chunk = (2, 1) := by
    rw [calculate_s3_url_count_pos (chunk + 1) chunk (by omega) hc]
    simp [Nat.div_self hc]
  refine ⟨?_, ?_, ?_, ?_, by simp [calculate_s3_url_count], hchunk, hsucc⟩
  · rw [hkey]; simp only [Nat.add_sub_cancel]; rw [Nat.mul_comm]; omega
  · rw [hkey]; omega
  · rw [hkey]; omega
  · rw [hkey, hceil]

/-- Witness for C3 at size 70, chunk 32: the plan (3, 6) recomposes the
size. -/
theorem chunk_plan_spec_witness :
    ((calculate_s3_url_count 70 32).1 - 1) * 32 + (calculate_s3_url_count 70 32).2 = 70 :=
  (chunk_plan_spec 70 32 (by decide) (by decide)).1

/-- Claim C1: refuted on the code (code bug). get_auth_header takes &self, so
the Connection fetched by the refresh is dropped: with the stored token
expired at the call (validity predicate false at now = 3600) and a refresh
that succeeds with a fresh token, the returned header still carries the old,
expired access token rather than the refreshed one. -/
theorem auth_header_stale_token_bug :
    check_access_token_validity
      { access_token := "old_token", refresh_token := "r", expires_in := 3600,
        connected_at := 0 } 3600 = false
    ∧ get_auth_header
        { access_token := "old_token", refresh_token := "r", expires_in := 3600,
          connected_at := 0 } 3600
        (.ok { access_token := "new_token", refresh_token := "r2",
               expires_in := 3600, connected_at := 3600 })
        = .ok "Bearer old_token"
    ∧ get_auth_header
        { access_token := "old_token", refresh_token := "r", expires_in := 3600,
          connected_at := 0 } 3600
        (.ok { access_token := "new_token", refresh_token := "r2",
               expires_in := 3600, connected_at := 3600 })
        ≠ .ok "Bearer new_token" := by
  refine ⟨by decide, rfl, fun h => ?_⟩
  injection h with h2
  exact absurd h2 (by decide)

/-- Counterexample for C4: with use_s3_storage reported false the upload
does not return the UnsupportedStorageMode error; it panics through
unimplemented!. -/
theorem nfs_storage_mode_counterexample :
    upload nfsEnv shareUnencrypted sampleOpts [[1]] none
        = .panicked "not implemented: NFS upload not implemented"
    ∧ upload nfsEnv shareUnencrypted sampleOpts [[1]] none
        ≠ .error .UnsupportedStorageMode := by
  refine ⟨by decide, by decide⟩

/-- Claim C4 as amended: when the system-info query reports use_s3_storage
false, the upload operation never performs an upload and never returns
UnsupportedStorageMode: it panics with the unimplemented! message "NFS
upload not implemented". -/
theorem nfs_storage_mode_panics_amended (env : UploadEnv)
    (share : PublicUploadShare) (opts : UploadOptions)
    (chunks : List (List Nat)) (cs : Option Nat)
    (h : env.system_info_use_s3 = .ok false) :
    upload env share opts chunks cs
        = .panicked "not implemented: NFS upload not implemented"
    ∧ upload env share opts chunks cs ≠ .error .UnsupportedStorageMode := by
  have hu : upload env share opts chunks cs
      = .panicked "not implemented: NFS upload not implemented" := by
    unfold upload
    rw [h]
  exact ⟨hu, by rw [hu]; simp⟩

/-- Witness for C4 at a concrete environment with use_s3_storage false. -/
theorem nfs_storage_mode_panics_amended_witness :
    upload nfsEnv shareOneRecipient sampleOpts [[42]] none
        = .panicked "not implemented: NFS upload not implemented"
    ∧ upload nfsEnv shareOneRecipient sampleOpts [[42]] none
        ≠ .error .UnsupportedStorageMode :=
  nfs_storage_mode_panics_amended nfsEnv shareOneRecipient sampleOpts [[42]] none rfl

/-- Claim C6: refuted on the code (code bug). The unencrypted channel
request chain calls with_direct_s3_upload(true) but the encrypted chain does
not, so the encrypted channel-creation request leaves direct_s3_upload unset
instead of setting it exactly as the unencrypted path does. -/
theorem encrypted_channel_direct_s3_upload_bug (fm : FileMeta)
    (ts_c ts_m : Option String) :
    (channelRequestEncrypted fm ts_c ts_m).direct_s3_upload = none
    ∧ (channelRequestUnencrypted fm ts_c ts_m).direct_s3_upload = some true
    ∧ channelRequestEncrypted fm ts_c ts_m ≠ channelRequestUnencrypted fm ts_c ts_m := by
  refine ⟨rfl, rfl, fun hEq => ?_⟩
  exact Option.noConfusion
    (congrArg CreateShareUploadChannelRequest.direct_s3_upload hEq)

/-- Counterexample for C7: the AuthCode-flow token request carries no HTTP
Basic Authorization header at all. -/
theorem authcode_basic_header_counterexample :
    Outcome.holds
      (connect_authcode_flow_request
        { base_url := { raw := "https://mock" },
          redirect_uri := some { raw := "https://mock/oauth/callback" },
          client_id := "cid", client_secret := "csec", connection := none } "xyz")
      (fun req => req.auth_header ≠ some ("Basic " ++ client_credentials "cid" "csec")) :=
  fun h => Option.noConfusion h

/-- Claim C7 as amended: only the Password flow carries the HTTP Basic
header with the no-padding base64url of client_id:client_secret (and no
client credentials in its form body); both the AuthCode flow and the
RefreshToken flow send the client credentials in the form body with no
Authorization header. base64url grounding: client_credentials of cid:csec
is Y2lkOmNzZWM. -/
theorem oauth_flow_credentials_amended (base r cid csec user pass code tok : String) :
    (connect_password_flow_request
        { base_url := { raw := base }, redirect_uri := some { raw := r },
          client_id := cid, client_secret := csec, connection := none } user pass).auth_header
      = some ("Basic " ++ client_credentials cid csec)
    ∧ (∀ v, ("client_id", v) ∉ (connect_password_flow_request
        { base_url := { raw := base }, redirect_uri := some { raw := r },
          client_id := cid, client_secret := csec, connection := none } user pass).form)
    ∧ Outcome.holds
        (connect_authcode_flow_request
          { base_url := { raw := base }, redirect_uri := some { raw := r },
            client_id := cid, client_secret := csec, connection := none } code)
        (fun req => req.auth_header = none
          ∧ ("client_id", cid) ∈ req.form ∧ ("client_secret", csec) ∈ req.form)
    ∧ (connect_refresh_token_request
        { base_url := { raw := base }, redirect_uri := some { raw := r },
          client_id := cid, client_secret := csec, connection := none } tok).auth_header = none
    ∧ ("client_id", cid) ∈ (connect_refresh_token_request
        { base_url := { raw := base }, redirect_uri := some { raw := r },
          client_id := cid, client_secret := csec, connection := none } tok).form
    ∧ ("client_secret", csec) ∈ (connect_refresh_token_request
        { base_url := { raw := base }, redirect_uri := some { raw := r },
          client_id := cid, client_secret := csec, connection := none } tok).form
    ∧ client_credentials "cid" "csec" = "Y2lkOmNzZWM" := by
  refine ⟨rfl, ?_, ?_, rfl, ?_, ?_, by decide⟩
  · intro v hv
    simp [connect_password_flow_request, passwordFlowForm] at hv
  · refine ⟨rfl, ?_, ?_⟩ <;>
      simp [authCodeFlowForm]
  · simp [connect_refresh_token_request, refreshTokenFlowForm]
  · simp [connect_refresh_token_request, refreshTokenFlowForm]

/-- Counterexample for C9: build accepts an empty client_id and an empty
client_secret; no non-emptiness validation exists. -/
theorem build_accepts_empty_credentials_counterexample :
    DracoonClientBuilder.build (fun s => some { raw := s })
      { base_url := some "https://dracoon.team", redirect_uri := none,
        client_id := some "", client_secret := some "" }
      = .ok { base_url := { raw := "https://dracoon.team" },
              redirect_uri := some { raw := "https://dracoon.team/oauth/callback" },
              client_id := "", client_secret := "", connection := none } := by
  decide

/-- Claim C9 as amended: build fails with MissingBaseUrl, MissingClientId
and MissingClientSecret when the respective field is absent and with
InvalidUrl when the base URL does not parse; it performs no emptiness
validation of client_id or client_secret; on success the emitted session is
Disconnected (connection = none). -/
theorem build_validation_amended (parseUrl : String → Option Url)
    (b : DracoonClientBuilder) :
    (b.base_url = none → b.build parseUrl = .error .MissingBaseUrl)
    ∧ (∀ s, b.base_url = some s → parseUrl s = none →
        b.build parseUrl = .error .InvalidUrl)
    ∧ (∀ s u, b.base_url = some s → parseUrl s = some u → b.client_id = none →
        b.build parseUrl = .error .MissingClientId)
    ∧ (∀ s u cid, b.base_url = some s → parseUrl s = some u →
        b.client_id = some cid → b.client_secret = none →
        b.build parseUrl = .error .MissingClientSecret)
    ∧ (∀ c, b.build parseUrl = .ok c → c.connection = none) := by
  refine ⟨?_, ?_, ?_, ?_, ?_⟩
  · intro h; simp [DracoonClientBuilder.build, h]
  · intro s hb hp; simp [DracoonClientBuilder.build, hb, hp]
  · intro s u hb hp hcid; simp [DracoonClientBuilder.build, hb, hp, hcid]
  · intro s u cid hb hp hcid hcs
    simp [DracoonClientBuilder.build, hb, hp, hcid, hcs]
  · intro c h
    simp only [DracoonClientBuilder.build] at h
    repeat' first
      | exact Except.noConfusion h
      | split at h
    injection h with h2
    subst h2
    rfl

/-- Witness for C9: a builder with no base url fails with MissingBaseUrl. -/
theorem build_validation_amended_witness :
    DracoonClientBuilder.build (fun s => some { raw := s })
      { base_url := none, redirect_uri := none,
        client_id := none, client_secret := none }
      = .error .MissingBaseUrl :=
  (build_validation_amended (fun s => some { raw := s })
    { base_url := none, redirect_uri := none,
      client_id := none, client_secret := none }).1 rfl

/-- Claim C8: on a run of the encrypted preamble that does not fail the
ciphertext length equals the declared size; with a length-preserving
encrypter (the trusted collaborator contract), a reader that yields fewer
bytes than the declared size makes the length assertion panic, and the whole
encrypted upload fails the same way. -/
theorem encrypted_preamble_length_spec (encrypt : List Nat → List Nat)
    (hlen : ∀ pt, (encrypt pt).length = pt.length)
    (chunks : List (List Nat)) (size : Nat) :
    (∀ ct, encryptedPreamble encrypt chunks size = .ok ct → ct.length = size)
    ∧ ((drainPlain size chunks).length < size →
        encryptedPreamble encrypt chunks size
          = .panicked "assertion failed: enc_bytes.len() as u64 == size")
    ∧ ((drainPlain size chunks).length < size →
        ∀ (env : UploadEnv) (share : PublicUploadShare) (opts : UploadOptions)
          (cs : Option Nat), env.encrypt = encrypt → opts.file_meta.size = size →
          upload_to_s3_encrypted env share opts chunks cs
            = .panicked "assertion failed: enc_bytes.len() as u64 == size") := by
  refine ⟨?_, ?_, ?_⟩
  · intro ct h
    simp only [encryptedPreamble] at h
    split at h
    · injection h with h2
      subst h2
      assumption
    · exact Outcome.noConfusion h
  · intro hshort
    have hne : ¬ (encrypt (drainPlain size chunks)).length = size := by
      rw [hlen]; omega
    simp only [encryptedPreamble, if_neg hne]
  · intro hshort env share opts cs henc hsize
    have hpan : encryptedPreamble env.encrypt chunks opts.file_meta.size
        = .panicked "assertion failed: enc_bytes.len() as u64 == size" := by
      rw [henc, hsize]
      have hne : ¬ (encrypt (drainPlain size chunks)).length = size := by
        rw [hlen]; omega
      simp only [encryptedPreamble, if_neg hne]
    simp only [upload_to_s3_encrypted, hpan]

/-- Witness for C8: a reader yielding 2 bytes against a declared size of 3
makes the preamble panic at the length assertion. -/
theorem encrypted_preamble_length_spec_witness :
    encryptedPreamble id [[1, 2]] 3
      = .panicked "assertion failed: enc_bytes.len() as u64 == size" :=
  (encrypted_preamble_length_spec id (fun _ => rfl) [[1, 2]] 3).2.1 (by decide)

/-- Helper: a recipient whose key wrap succeeds contributes its id to the
user file key list. -/
theorem computeUserFileKeys_mem (wrap : String → Except DracoonClientError String)
    (items : List UserUserPublicKey) (key : UserUserPublicKey) (hk : key ∈ items)
    (fk : String) (hw : wrap key.public_key_container = .ok fk) :
    key.id ∈ (computeUserFileKeys wrap items).map UserFileKey.recipient_id := by
  induction items with
  | nil => cases hk
  | cons a rest ih =>
    rcases List.mem_cons.mp hk with h | h
    · subst h
      simp [computeUserFileKeys, hw]
    · have hmem := ih h
      simp only [computeUserFileKeys, List.map_append, List.mem_append]
      exact Or.inr hmem

/-- Helper: inversion of a successful unencrypted upload run: the trace file
name and sleeps come from the status poll started at POLLING_START_DELAY,
the channel request is the unencrypted one (direct_s3_upload true), and the
finalize request carries user_file_keys = None. -/
theorem upload_to_s3_unencrypted_ok_inv (env : UploadEnv)
    (share : PublicUploadShare) (opts : UploadOptions) (bytes : List Nat)
    (cs : Option Nat) (tr : SuccessTrace)
    (h : upload_to_s3_unencrypted env share opts bytes cs = .ok tr) :
    pollUploadStatus env.statuses POLLING_START_DELAY
      = some (.ok tr.file_name, tr.sleeps)
    ∧ tr.channelReq = channelRequestUnencrypted opts.file_meta
        opts.timestamp_creation opts.timestamp_modification
    ∧ tr.finalizeReq.user_file_keys = none := by
  simp only [upload_to_s3_unencrypted] at h
  repeat' first
    | exact Outcome.noConfusion h
    | split at h
  injection h with h2
  subst h2
  rename_i fn sleeps hpoll
  exact ⟨hpoll, rfl, rfl⟩

/-- Helper: inversion of a successful encrypted upload run: the trace file
name and sleeps come from the status poll started at POLLING_START_DELAY,
the channel request is the encrypted one (direct_s3_upload unset), and the
finalize request carries exactly the silently-filtered user file keys. -/
theorem upload_to_s3_encrypted_ok_inv (env : UploadEnv)
    (share : PublicUploadShare) (opts : UploadOptions)
    (chunks : List (List Nat)) (cs : Option Nat) (tr : SuccessTrace)
    (h : upload_to_s3_encrypted env share opts chunks cs = .ok tr) :
    pollUploadStatus env.statuses POLLING_START_DELAY
      = some (.ok tr.file_name, tr.sleeps)
    ∧ tr.channelReq = channelRequestEncrypted opts.file_meta
        opts.timestamp_creation opts.timestamp_modification
    ∧ tr.finalizeReq.user_file_keys
        = some (computeUserFileKeys env.encrypt_file_key
            (share.user_user_public_key_list.getD { items := [] }).items) := by
  simp only [upload_to_s3_encrypted] at h
  repeat' first
    | exact Outcome.noConfusion h
    | split at h
  injection h with h2
  subst h2
  rename_i fn sleeps hpoll
  exact ⟨hpoll, rfl, rfl⟩

/-- Counterexample for C2: against c2env (where wrapping the file key for
the sole recipient id 7 fails) the encrypted upload still succeeds, but the
finalize request carries an empty user_file_keys list, so recipient 7 is not
represented. -/
theorem encrypted_upload_recipient_skip_counterexample :
    upload_to_s3_encrypted c2env shareOneRecipient sampleOpts [[42]] none = .ok c2Trace
    ∧ (shareOneRecipient.user_user_public_key_list.getD { items := [] }).items.map
        UserUserPublicKey.id = [7]
    ∧ c2Trace.finalizeReq.user_file_keys = some []
    ∧ ¬ 7 ∈ (([] : List UserFileKey).map UserFileKey.recipient_id) := by
  refine ⟨by decide, by decide, by decide, by decide⟩

/-- Claim C2 as amended: for every encrypted upload that succeeds, every
recipient whose file-key wrap succeeds appears among the recipient_id fields
of the user_file_keys list attached to the finalize request (recipients
whose wrap fails are skipped silently by the flat_map). -/
theorem encrypted_upload_recipient_subset_amended (env : UploadEnv)
    (share : PublicUploadShare) (opts : UploadOptions)
    (chunks : List (List Nat)) (cs : Option Nat) (tr : SuccessTrace)
    (h : upload_to_s3_encrypted env share opts chunks cs = .ok tr)
    (key : UserUserPublicKey)
    (hk : key ∈ (share.user_user_public_key_list.getD { items := [] }).items)
    (fk : String)
    (hw : env.encrypt_file_key key.public_key_container = .ok fk) :
    ∃ ufks, tr.finalizeReq.user_file_keys = some ufks
      ∧ key.id ∈ ufks.map UserFileKey.recipient_id :=
  ⟨computeUserFileKeys env.encrypt_file_key
      (share.user_user_public_key_list.getD { items := [] }).items,
    (upload_to_s3_encrypted_ok_inv env share opts chunks cs tr h).2.2,
    computeUserFileKeys_mem env.encrypt_file_key _ key hk fk hw⟩

/-- Witness for C2 at a concrete successful encrypted upload whose sole
recipient wrap succeeds. -/
theorem encrypted_upload_recipient_subset_amended_witness :
    ∃ ufks, okTrace.finalizeReq.user_file_keys = some ufks
      ∧ 7 ∈ ufks.map UserFileKey.recipient_id :=
  encrypted_upload_recipient_subset_amended okEnv shareOneRecipient sampleOpts
    [[42]] none okTrace (by decide)
    { id := 7, public_key_container := "pk7" } (by decide) "wrapped" (by decide)

/-- Helper: closed form of the polling loop for an arbitrary start delay: a
run of non-terminal statuses followed by a terminal response sleeps
delay, 2 delay, 4 delay, ... (one sleep per non-terminal status) and ends
with the terminal outcome. -/
theorem pollUploadStatus_closed (pre : List S3ShareUploadStatus) :
    ∀ (delay : Nat),
    (∀ s ∈ pre, s.status = S3UploadStatus.Transferring
      ∨ s.status = S3UploadStatus.Finishing) →
    ∀ (fin : S3ShareUploadStatus) (out : Outcome String),
    pollUploadStatus [Except.ok fin] (delay * 2 ^ pre.length) = some (out, []) →
    pollUploadStatus (pre.map Except.ok ++ [Except.ok fin]) delay
      = some (out, (List.range pre.length).map fun i => delay * 2 ^ i) := by
  induction pre with
  | nil =>
    intro delay hpre fin out hout
    simpa using hout
  | cons s rest ih =>
    intro delay hpre fin out hout
    have hs := hpre s (List.mem_cons_self s rest)
    have hout2 : pollUploadStatus [Except.ok fin] (delay * 2 * 2 ^ rest.length)
        = some (out, []) := by
      have harith : delay * 2 * 2 ^ rest.length = delay * 2 ^ (rest.length + 1) := by
        rw [pow_succ]; ring
      rw [harith]
      exact hout
    have hrec := ih (delay * 2)
      (fun t ht => hpre t (List.mem_cons_of_mem s ht)) fin out hout2
    have hfun : ((fun i => delay * 2 ^ i) ∘ Nat.succ)
        = (fun i => delay * 2 * 2 ^ i) := by
      funext i
      simp [pow_succ]
      ring
    rcases hs with h | h <;>
      (simp only [List.map_cons, List.cons_append, pollUploadStatus, h,
         List.append_eq, hrec]
       rw [List.length_cons, List.range_succ_eq_map, List.map_cons,
         List.map_map, hfun]
       simp)

/-- Claim C5: after finalize both uploaders poll the upload status starting
at POLLING_START_DELAY: each non-terminal status (Transferring or Finishing)
sleeps the current delay and doubles it, Done returns the status file name,
and Error returns an Http error carrying the status error_details; a
successful run of either uploader reports exactly the file name and sleeps
of that poll. -/
theorem upload_status_polling_spec (pre : List S3ShareUploadStatus)
    (fin : S3ShareUploadStatus)
    (hpre : ∀ s ∈ pre, s.status = S3UploadStatus.Transferring
      ∨ s.status = S3UploadStatus.Finishing) :
    (fin.status = .Done →
      pollUploadStatus (pre.map Except.ok ++ [Except.ok fin]) POLLING_START_DELAY
        = some (.ok fin.file_name,
            (List.range pre.length).map fun i => POLLING_START_DELAY * 2 ^ i))
    ∧ (∀ ed, fin.status = .Error → fin.error_details = some ed →
      pollUploadStatus (pre.map Except.ok ++ [Except.ok fin]) POLLING_START_DELAY
        = some (.error (.Http ed),
            (List.range pre.length).map fun i => POLLING_START_DELAY * 2 ^ i))
    ∧ (∀ (env : UploadEnv) (share : PublicUploadShare) (opts : UploadOptions)
        (chunks : List (List Nat)) (cs : Option Nat) (tr : SuccessTrace),
        upload_to_s3_encrypted env share opts chunks cs = Outcome.ok tr →
        pollUploadStatus env.statuses POLLING_START_DELAY
          = some (.ok tr.file_name, tr.sleeps))
    ∧ (∀ (env : UploadEnv) (share : PublicUploadShare) (opts : UploadOptions)
        (bytes : List Nat) (cs : Option Nat) (tr : SuccessTrace),
        upload_to_s3_unencrypted env share opts bytes cs = Outcome.ok tr →
        pollUploadStatus env.statuses POLLING_START_DELAY
          = some (.ok tr.file_name, tr.sleeps)) := by
  refine ⟨?_, ?_, ?_, ?_⟩
  · intro hDone
    exact pollUploadStatus_closed pre POLLING_START_DELAY hpre fin
      (.ok fin.file_name) (by simp [pollUploadStatus, hDone])
  · intro ed hErr hed
    exact pollUploadStatus_closed pre POLLING_START_DELAY hpre fin
      (.error (.Http ed)) (by simp [pollUploadStatus, hErr, hed])
  · intro env share opts chunks cs tr h
    exact (upload_to_s3_encrypted_ok_inv env share opts chunks cs tr h).1
  · intro env share opts bytes cs tr h
    exact (upload_to_s3_unencrypted_ok_inv env share opts bytes cs tr h).1

/-- Witness for C5: Transferring then Finishing then Done yields the file
name after sleeping 300 ms and 600 ms. -/
theorem upload_status_polling_spec_witness :
    pollUploadStatus
      ([{ status := S3UploadStatus.Transferring, file_name := "", error_details := none },
        { status := S3UploadStatus.Finishing, file_name := "", error_details := none }].map
          Except.ok
        ++ [Except.ok { status := S3UploadStatus.Done, file_name := "x.txt", error_details := none }])
      POLLING_START_DELAY
      = some (.ok "x.txt", (List.range 2).map fun i => POLLING_START_DELAY * 2 ^ i) :=
  (upload_status_polling_spec
    [{ status := S3UploadStatus.Transferring, file_name := "", error_details := none },
     { status := S3UploadStatus.Finishing, file_name := "", error_details := none }]
    { status := S3UploadStatus.Done, file_name := "x.txt", error_details := none }
    (by decide)).1 rfl

/-- Claim C10: in both uploaders the progress position of the final part is
computed from the fixed 32 MiB constant CHUNK_SIZE ((count - 1) * CHUNK_SIZE,
through u32 arithmetic on the encrypted path), while non-final positions use
the caller chunk size; in the wrap-free range the final-part computations by
the two formulas coincide exactly when the caller chunk size equals
CHUNK_SIZE. -/
theorem progress_position_constants (count chunk_size : Nat)
    (h2 : 2 ≤ count) (hw : (count - 1) * chunk_size < 2 ^ 32)
    (hW : (count - 1) * CHUNK_SIZE < 2 ^ 32) (hcs : chunk_size < 2 ^ 32) :
    posFinalUnenc count = (count - 1) * CHUNK_SIZE
    ∧ posFinalEnc count = (count - 1) * CHUNK_SIZE
    ∧ posNonFinalEnc chunk_size count = (count - 1) * chunk_size
    ∧ posNonFinalUnenc chunk_size count = (count - 1) * chunk_size
    ∧ ((count - 1) * chunk_size = posFinalUnenc count ↔ chunk_size = CHUNK_SIZE) := by
  have hCS : CHUNK_SIZE % 2 ^ 32 = CHUNK_SIZE := by decide
  refine ⟨rfl, ?_, rfl, ?_, ?_⟩
  · unfold posFinalEnc
    rw [hCS]
    exact Nat.mod_eq_of_lt hW
  · unfold posNonFinalUnenc
    rw [Nat.mod_eq_of_lt hcs]
    exact Nat.mod_eq_of_lt hw
  · constructor
    · intro hEq
      unfold posFinalUnenc at hEq
      exact Nat.eq_of_mul_eq_mul_left (by omega) hEq
    · intro hEq
      rw [hEq]
      rfl

/-- Witness for C10 at count 2 and caller chunk size 1024. -/
theorem progress_position_constants_witness :
    posFinalUnenc 2 = (2 - 1) * CHUNK_SIZE
    ∧ posFinalEnc 2 = (2 - 1) * CHUNK_SIZE :=
  ⟨(progress_position_constants 2 1024 (by decide) (by decide) (by decide)
      (by decide)).1,
   (progress_position_constants 2 1024 (by decide) (by decide) (by decide)
      (by decide)).2.1⟩
